import Mathlib

/-!
Verification of the layout and compositing engine of
src/PostcardProcessor.py (class PostcardProcessor).

Modelling conventions:
* Python float arithmetic is modelled by exact rational arithmetic over ℚ.
* Python int() applied to the non-negative quantities arising here is
  modelled by Int.floor (truncation and floor agree on non-negative values).
* Python // (floor division) on integers is modelled by Int.fdiv.
* The PIL / filesystem capabilities (Image.open, canvas.save, font loading)
  are modelled by an explicit environment recording their outcomes; a raised
  exception is modelled by Option.none / a false success flag.
* The EXIF tag table is modelled as a list of (tag name, value) pairs in
  dictionary iteration order; a tag value carries its string content (as fed
  to strptime) and its Python truthiness (as tested by the GPSInfo branch).
-/

/-- A6 canvas width in pixels, self.A6_WIDTH = 1240. -/
def A6_WIDTH : ℕ := 1240

/-- A6 canvas height in pixels, self.A6_HEIGHT = 1748. -/
def A6_HEIGHT : ℕ := 1748

/-- Caption strip height ratio, self.WHITE_BAR_RATIO = 0.18. -/
def WHITE_BAR_RATIO : ℚ := 18 / 100

/-- Usable height above the caption strip, from calculate_dimensions:
available_height = int(self.A6_HEIGHT * (1 - self.WHITE_BAR_RATIO)). -/
def available_height : ℤ := ⌊(A6_HEIGHT : ℚ) * (1 - WHITE_BAR_RATIO)⌋

/-- calculate_dimensions (lines 91-107): aspect-fit the source dimensions
into A6_WIDTH × available_height; both results pass through Python int(). -/
def calculate_dimensions (original_width original_height : ℕ) : ℤ × ℤ :=
  let width_ratio : ℚ := (A6_WIDTH : ℚ) / original_width
  let height_ratio : ℚ := (available_height : ℚ) / original_height
  let scale_ratio : ℚ := min width_ratio height_ratio
  (⌊(original_width : ℚ) * scale_ratio⌋, ⌊(original_height : ℚ) * scale_ratio⌋)

/-- Unrotated fit factor from should_rotate_for_a6:
min(self.A6_WIDTH / width, (self.A6_HEIGHT * 0.82) / height). -/
def horizontal_ratio (width height : ℕ) : ℚ :=
  min ((A6_WIDTH : ℚ) / width) ((A6_HEIGHT : ℚ) * (82 / 100) / height)

/-- Rotated fit factor from should_rotate_for_a6:
min(self.A6_WIDTH / height, (self.A6_HEIGHT * 0.82) / width). -/
def vertical_ratio (width height : ℕ) : ℚ :=
  min ((A6_WIDTH : ℚ) / height) ((A6_HEIGHT : ℚ) * (82 / 100) / width)

/-- should_rotate_for_a6 (lines 109-119): landscape images rotate exactly
when the rotated fit factor beats the unrotated one by more than 10%. -/
def should_rotate_for_a6 (width height : ℕ) : Bool :=
  if height < width then
    decide (vertical_ratio width height > horizontal_ratio width height * (11 / 10))
  else
    false

/-- Numeric value of a decimal digit character. -/
def digitVal (c : Char) : ℕ := c.toNat - 48

/-- Year field of strptime's %Y directive: exactly four decimal digits. -/
def parseYear4 : List Char → Option (ℕ × List Char)
  | a :: b :: c :: d :: rest =>
      if a.isDigit && b.isDigit && c.isDigit && d.isDigit then
        some (1000 * digitVal a + 100 * digitVal b + 10 * digitVal c + digitVal d, rest)
      else none
  | _ => none

/-- Month field of strptime's %m directive, alternatives in regex order:
two digits 10-12, two digits 01-09, or a single digit 1-9.  A two-digit
alternative can never be the wrong greedy choice here because every
following literal in the format is a non-digit. -/
def parseMonth : List Char → Option (ℕ × List Char)
  | '1' :: c :: rest =>
      if '0' ≤ c && c ≤ '2' then some (10 + digitVal c, rest)
      else some (1, c :: rest)
  | '0' :: c :: rest =>
      if '1' ≤ c && c ≤ '9' then some (digitVal c, rest) else none
  | c :: rest =>
      if '1' ≤ c && c ≤ '9' then some (digitVal c, rest) else none
  | [] => none

/-- Day field of strptime's %d directive: 30-31, 10-29, 01-09, or 1-9. -/
def parseDay : List Char → Option (ℕ × List Char)
  | '3' :: c :: rest =>
      if c = '0' || c = '1' then some (30 + digitVal c, rest)
      else some (3, c :: rest)
  | '1' :: c :: rest =>
      if c.isDigit then some (10 + digitVal c, rest) else some (1, c :: rest)
  | '2' :: c :: rest =>
      if c.isDigit then some (20 + digitVal c, rest) else some (2, c :: rest)
  | '0' :: c :: rest =>
      if '1' ≤ c && c ≤ '9' then some (digitVal c, rest) else none
  | c :: rest =>
      if '1' ≤ c && c ≤ '9' then some (digitVal c, rest) else none
  | [] => none

/-- Hour field of strptime's %H directive: 20-23, 00-19, or one digit. -/
def parseHour : List Char → Option (ℕ × List Char)
  | '2' :: c :: rest =>
      if '0' ≤ c && c ≤ '3' then some (20 + digitVal c, rest)
      else some (2, c :: rest)
  | '0' :: c :: rest =>
      if c.isDigit then some (digitVal c, rest) else some (0, c :: rest)
  | '1' :: c :: rest =>
      if c.isDigit then some (10 + digitVal c, rest) else some (1, c :: rest)
  | c :: rest =>
      if c.isDigit then some (digitVal c, rest) else none
  | [] => none

/-- Minute field of strptime's %M directive: 00-59 or one digit. -/
def parseMinute : List Char → Option (ℕ × List Char)
  | c1 :: c2 :: rest =>
      if '0' ≤ c1 && c1 ≤ '5' && c2.isDigit then
        some (10 * digitVal c1 + digitVal c2, rest)
      else if c1.isDigit then some (digitVal c1, c2 :: rest)
      else none
  | [c1] => if c1.isDigit then some (digitVal c1, []) else none
  | [] => none

/-- Second field of strptime's %S directive: 60-61, 00-59, or one digit. -/
def parseSecond : List Char → Option (ℕ × List Char)
  | '6' :: c :: rest =>
      if c = '0' || c = '1' then some (60 + digitVal c, rest)
      else some (6, c :: rest)
  | c1 :: c2 :: rest =>
      if '0' ≤ c1 && c1 ≤ '5' && c2.isDigit then
        some (10 * digitVal c1 + digitVal c2, rest)
      else if c1.isDigit then some (digitVal c1, c2 :: rest)
      else none
  | [c1] => if c1.isDigit then some (digitVal c1, []) else none
  | [] => none

/-- A literal ':' of the strptime format string. -/
def parseColon : List Char → Option (List Char)
  | ':' :: rest => some rest
  | _ => none

/-- The literal blank of the format string, compiled by strptime to one or
more whitespace characters; greediness is harmless since the next field
starts with a digit. -/
def parseSpaces : List Char → Option (List Char)
  | c :: rest =>
      if c.isWhitespace then some (rest.dropWhile Char.isWhitespace) else none
  | [] => none

/-- Proleptic Gregorian leap-year rule used by datetime. -/
def isLeap (y : ℕ) : Bool := (y % 4 == 0 && !(y % 100 == 0)) || y % 400 == 0

/-- Number of days of a month, as validated by the datetime constructor. -/
def daysInMonth (y m : ℕ) : ℕ :=
  match m with
  | 2 => if isLeap y then 29 else 28
  | 4 => 30
  | 6 => 30
  | 9 => 30
  | 11 => 30
  | _ => 31

/-- datetime.strptime(value, "%Y:%m:%d %H:%M:%S") followed by datetime
construction: the whole string must be consumed, the year must be at least
MINYEAR = 1, the day must exist in the month, and the second must be below
60 (the regex admits leap seconds 60-61 but datetime rejects them).  Fields
bounded by construction (month, hour, minute) need no extra check.
Returns the (year, month, day) triple used by the output format. -/
def strptime_YmdHMS (s : String) : Option (ℕ × ℕ × ℕ) := do
  let cs0 := s.data
  let (y, cs1) ← parseYear4 cs0
  let cs2 ← parseColon cs1
  let (m, cs3) ← parseMonth cs2
  let cs4 ← parseColon cs3
  let (d, cs5) ← parseDay cs4
  let cs6 ← parseSpaces cs5
  let (_hh, cs7) ← parseHour cs6
  let cs8 ← parseColon cs7
  let (_mi, cs9) ← parseMinute cs8
  let cs10 ← parseColon cs9
  let (ss, cs11) ← parseSecond cs10
  if cs11 = [] ∧ 1 ≤ y ∧ d ≤ daysInMonth y m ∧ ss ≤ 59 then
    some (y, m, d)
  else
    none

/-- English month abbreviations of strftime's %b directive (C locale). -/
def monthAbbrev : ℕ → String
  | 1 => "Jan"
  | 2 => "Feb"
  | 3 => "Mar"
  | 4 => "Apr"
  | 5 => "May"
  | 6 => "Jun"
  | 7 => "Jul"
  | 8 => "Aug"
  | 9 => "Sep"
  | 10 => "Oct"
  | 11 => "Nov"
  | 12 => "Dec"
  | _ => ""

/-- Zero-padded two-digit rendering of strftime's %d directive. -/
def pad2 (n : ℕ) : String := if n < 10 then "0" ++ toString n else toString n

/-- datetime_obj.strftime("%b %d, %Y"). -/
def strftime_bdY (y m d : ℕ) : String :=
  monthAbbrev m ++ " " ++ pad2 d ++ ", " ++ toString y

/-- The DateTimeOriginal branch of extract_exif_data (lines 66-71): parse
with strptime and reformat on success, pass the raw value through on any
parse failure (the bare except). -/
def reformatDateTime (value : String) : String :=
  match strptime_YmdHMS value with
  | some (y, m, d) => strftime_bdY y m d
  | none => value

/-- An EXIF tag value: its string content (as handed to strptime) together
with its Python truthiness (as tested by the GPSInfo branch). -/
structure TagValue where
  text : String
  truthy : Bool
deriving DecidableEq

/-- extract_gps_location (lines 78-89): a truthy GPS entry yields the
constant placeholder label, anything else yields None. -/
def extract_gps_location (value : TagValue) : Option String :=
  if value.truthy then some "拍摄地点" else none

/-- One iteration of the tag loop of extract_exif_data (lines 63-74). -/
def exif_step (acc : Option String × Option String) (p : String × TagValue) :
    Option String × Option String :=
  if p.1 = "DateTimeOriginal" then (some (reformatDateTime p.2.text), acc.2)
  else if p.1 = "GPSInfo" then (acc.1, extract_gps_location p.2)
  else acc

/-- extract_exif_data (lines 39-76) on the decoded tag table: none models a
table that could not be obtained (_getexif failed or returned None); the
loop over the items is a left fold.  An empty table returns (None, None)
through the falsiness check, which the empty fold reproduces. -/
def extract_exif_data (tags : Option (List (String × TagValue))) :
    Option String × Option String :=
  match tags with
  | none => (none, none)
  | some l => l.foldl exif_step (none, none)

/-- Python `x if x else d` as used on the caption strings: None and the
empty string both fall back. -/
def fallback_text (value : Option String) (d : String) : String :=
  match value with
  | some s => if s = "" then d else s
  | none => d

/-- The two caption lines prepared inside add_text_info (lines 205-207). -/
def caption_lines (datetime_str location_str : Option String) : String × String :=
  (fallback_text datetime_str "2024.01.01", fallback_text location_str "SHENZHEN")

/-- A decoded source image: pixel dimensions and the EXIF tag table that
extract_exif_data obtains for the same path. -/
structure SourceImage where
  width : ℕ
  height : ℕ
  tags : Option (List (String × TagValue))
deriving DecidableEq

/-- Outcome environment for the external capabilities used by one
create_postcard call: the result of Image.open for the path (none models a
raised decode error), whether font loading and caption drawing succeed, and
whether canvas.save succeeds. -/
structure Env where
  openImage : Option SourceImage
  textOk : Bool
  saveOk : Bool
deriving DecidableEq

/-- The composed output canvas: fixed dimensions, pasted content geometry,
caption strip geometry, and the caption actually drawn (none when
add_text_info swallowed a text-rendering failure). -/
structure Canvas where
  width : ℕ
  height : ℕ
  contentWidth : ℤ
  contentHeight : ℤ
  xOffset : ℤ
  yOffset : ℤ
  stripTopY : ℤ
  stripHeight : ℤ
  caption : Option (String × String)
deriving DecidableEq

/-- ASCII lowercasing of one character, modelling str.lower on the file
names considered here. -/
def toLowerAscii (c : Char) : Char :=
  if 'A' ≤ c && c ≤ 'Z' then Char.ofNat (c.toNat + 32) else c

/-- Suffix test on character lists, modelling str.endswith. -/
def endsWithChars (s suff : List Char) : Bool :=
  decide (suff.length ≤ s.length) && s.drop (s.length - suff.length) == suff

/-- path.lower().endswith((".nef", ".raw")) as tested on lines 47 and 125. -/
def isRawPath (path : String) : Bool :=
  let l := path.data.map toLowerAscii
  endsWithChars l ".nef".data || endsWithChars l ".raw".data

/-- read_raw_file (lines 26-37): the body references the name rawpy, which
is never imported, so the with-statement raises NameError before any
decoding, the bare except swallows it and the function returns None — for
every path. -/
def read_raw_file (_path : String) : Option SourceImage := none

/-- Caption strip height, white_bar_height = int(self.A6_HEIGHT * self.WHITE_BAR_RATIO)
(line 164). -/
def white_bar_height : ℤ := ⌊(A6_HEIGHT : ℚ) * WHITE_BAR_RATIO⌋

/-- create_postcard (lines 121-184).  Raw paths go through read_raw_file,
others through Image.open; a missing image returns False with no output.
Then: EXIF extraction, the rotation decision (a rotate(90, expand=True)
swaps the dimensions), calculate_dimensions on the current dimensions, the
centering offsets (Python // is Int.fdiv), the caption strip, add_text_info
(which swallows its own failures, dropping the caption), and canvas.save;
a save failure raises into the outer except, so nothing is written and the
call returns False.  The pair is (returned bool, written output). -/
def create_postcard (path : String) (env : Env) : Bool × Option Canvas :=
  let image := if isRawPath path then read_raw_file path else env.openImage
  match image with
  | none => (false, none)
  | some img =>
      let exif := extract_exif_data img.tags
      let rotated := should_rotate_for_a6 img.width img.height
      let current_width := if rotated then img.height else img.width
      let current_height := if rotated then img.width else img.height
      let dims := calculate_dimensions current_width current_height
      let x_offset := ((A6_WIDTH : ℤ) - dims.1).fdiv 2
      let caption := if env.textOk then some (caption_lines exif.1 exif.2) else none
      let canvas : Canvas :=
        { width := A6_WIDTH
          height := A6_HEIGHT
          contentWidth := dims.1
          contentHeight := dims.2
          xOffset := x_offset
          yOffset := 0
          stripTopY := dims.2
          stripHeight := white_bar_height
          caption := caption }
      if env.saveOk then (true, some canvas) else (false, none)

/-- filename.lower().endswith(supported_formats) on line 234. -/
def isSupportedFormat (name : String) : Bool :=
  let l := name.data.map toLowerAscii
  endsWithChars l ".jpg".data || endsWithChars l ".jpeg".data ||
    endsWithChars l ".nef".data || endsWithChars l ".raw".data ||
    endsWithChars l ".tiff".data || endsWithChars l ".png".data

/-- Contribution of one directory entry to the success counter of
process_folder: unsupported names are skipped, supported ones add one
exactly when create_postcard returns True. -/
def file_contrib (fe : String × Env) : ℕ :=
  if isSupportedFormat fe.1 then
    if (create_postcard fe.1 fe.2).1 then 1 else 0
  else 0

/-- process_folder (lines 224-246) restricted to its counting behaviour:
a left fold over the directory listing, each file processed in turn. -/
def process_folder (files : List (String × Env)) : ℕ :=
  files.foldl (fun count fe => count + file_contrib fe) 0

/-- Full correctness statement for calculate_dimensions on one input pair:
the computed pair is the floor of the source dimensions scaled by
min(availableWidth/width, availableHeight/height), the available height is
the literal 1433 = int(1748 * (1 - 0.18)), the rounded width and height
respect the canvas bounds, and whenever the rounded height is positive the
rounded aspect ratio is within max(width, height) / (newHeight * height)
of the source aspect ratio. -/
def calc_dims_spec (w h : ℕ) : Prop :=
  calculate_dimensions w h =
      (⌊(w : ℚ) * min ((A6_WIDTH : ℚ) / w) ((available_height : ℚ) / h)⌋,
        ⌊(h : ℚ) * min ((A6_WIDTH : ℚ) / w) ((available_height : ℚ) / h)⌋)
    ∧ available_height = 1433
    ∧ (calculate_dimensions w h).1 ≤ (A6_WIDTH : ℤ)
    ∧ ((calculate_dimensions w h).2 : ℚ) ≤ (A6_HEIGHT : ℚ) * (1 - WHITE_BAR_RATIO)
    ∧ (0 < (calculate_dimensions w h).2 →
        |((calculate_dimensions w h).1 : ℚ) / ((calculate_dimensions w h).2 : ℚ)
            - (w : ℚ) / (h : ℚ)|
          < ((max w h : ℕ) : ℚ) / (((calculate_dimensions w h).2 : ℚ) * (h : ℚ)))

/-- Numeric value of the available height: int(1748 * (1 - 0.18)) = 1433. -/
lemma available_height_eq : available_height = 1433 := by
  unfold available_height
  rw [Int.floor_eq_iff]
  norm_num [A6_HEIGHT, WHITE_BAR_RATIO]

/-- Numeric value of the caption strip height: int(1748 * 0.18) = 314. -/
lemma white_bar_height_eq : white_bar_height = 314 := by
  unfold white_bar_height
  rw [Int.floor_eq_iff]
  norm_num [A6_HEIGHT, WHITE_BAR_RATIO]

/-- The scaled width never exceeds the canvas width before rounding. -/
lemma scale_mul_width_le (w h : ℕ) (hw : 0 < w) :
    (w : ℚ) * min ((A6_WIDTH : ℚ) / w) ((available_height : ℚ) / h) ≤ (A6_WIDTH : ℚ) := by
  have hwQ : (0 : ℚ) < (w : ℚ) := by exact_mod_cast hw
  calc (w : ℚ) * min ((A6_WIDTH : ℚ) / w) ((available_height : ℚ) / h)
      ≤ (w : ℚ) * ((A6_WIDTH : ℚ) / w) :=
        mul_le_mul_of_nonneg_left (min_le_left _ _) hwQ.le
    _ = (A6_WIDTH : ℚ) := by field_simp

/-- The scaled height never exceeds the available height before rounding. -/
lemma scale_mul_height_le (w h : ℕ) (hh : 0 < h) :
    (h : ℚ) * min ((A6_WIDTH : ℚ) / w) ((available_height : ℚ) / h)
      ≤ ((available_height : ℤ) : ℚ) := by
  have hhQ : (0 : ℚ) < (h : ℚ) := by exact_mod_cast hh
  calc (h : ℚ) * min ((A6_WIDTH : ℚ) / w) ((available_height : ℚ) / h)
      ≤ (h : ℚ) * (((available_height : ℤ) : ℚ) / h) :=
        mul_le_mul_of_nonneg_left (min_le_right _ _) hhQ.le
    _ = ((available_height : ℤ) : ℚ) := by field_simp

/-- Rounded width bound of calculate_dimensions. -/
lemma calc_width_le (w h : ℕ) (hw : 0 < w) :
    (calculate_dimensions w h).1 ≤ (A6_WIDTH : ℤ) := by
  have h1 : (calculate_dimensions w h).1
      = ⌊(w : ℚ) * min ((A6_WIDTH : ℚ) / w) ((available_height : ℚ) / h)⌋ := rfl
  rw [h1]
  calc ⌊(w : ℚ) * min ((A6_WIDTH : ℚ) / w) ((available_height : ℚ) / h)⌋
      ≤ ⌊(A6_WIDTH : ℚ)⌋ := Int.floor_le_floor (scale_mul_width_le w h hw)
    _ = (A6_WIDTH : ℤ) := Int.floor_natCast _

/-- Rounded height bound of calculate_dimensions. -/
lemma calc_height_le (w h : ℕ) (hh : 0 < h) :
    (calculate_dimensions w h).2 ≤ available_height := by
  have h1 : (calculate_dimensions w h).2
      = ⌊(h : ℚ) * min ((A6_WIDTH : ℚ) / w) ((available_height : ℚ) / h)⌋ := rfl
  rw [h1]
  calc ⌊(h : ℚ) * min ((A6_WIDTH : ℚ) / w) ((available_height : ℚ) / h)⌋
      ≤ ⌊((available_height : ℤ) : ℚ)⌋ := Int.floor_le_floor (scale_mul_height_le w h hh)
    _ = available_height := Int.floor_intCast _

/-- Flooring a pair of commensurable products moves their quotient away from
the exact ratio by less than max(w, h) divided by the rounded denominator
times the exact denominator. -/
lemma floor_pair_ratio (w h : ℕ) (s : ℚ) (hw : 0 < w) (hh : 0 < h)
    (hB : 0 < ⌊(h : ℚ) * s⌋) :
    |((⌊(w : ℚ) * s⌋ : ℚ) / (⌊(h : ℚ) * s⌋ : ℚ)) - (w : ℚ) / (h : ℚ)|
      < ((max w h : ℕ) : ℚ) / ((⌊(h : ℚ) * s⌋ : ℚ) * (h : ℚ)) := by
  have hwQ : (0 : ℚ) < (w : ℚ) := by exact_mod_cast hw
  have hhQ : (0 : ℚ) < (h : ℚ) := by exact_mod_cast hh
  have hBQ : (0 : ℚ) < ((⌊(h : ℚ) * s⌋ : ℤ) : ℚ) := by exact_mod_cast hB
  have hfA : ((⌊(w : ℚ) * s⌋ : ℤ) : ℚ) ≤ (w : ℚ) * s := Int.floor_le _
  have hfB : ((⌊(h : ℚ) * s⌋ : ℤ) : ℚ) ≤ (h : ℚ) * s := Int.floor_le _
  have hfA1 : (w : ℚ) * s - 1 < ((⌊(w : ℚ) * s⌋ : ℤ) : ℚ) := Int.sub_one_lt_floor _
  have hfB1 : (h : ℚ) * s - 1 < ((⌊(h : ℚ) * s⌋ : ℤ) : ℚ) := Int.sub_one_lt_floor _
  have hwmax : (w : ℚ) ≤ ((max w h : ℕ) : ℚ) := by exact_mod_cast Nat.le_max_left w h
  have hhmax : (h : ℚ) ≤ ((max w h : ℕ) : ℚ) := by exact_mod_cast Nat.le_max_right w h
  have key : |((⌊(w : ℚ) * s⌋ : ℤ) : ℚ) * (h : ℚ) - ((⌊(h : ℚ) * s⌋ : ℤ) : ℚ) * (w : ℚ)|
      < ((max w h : ℕ) : ℚ) := by
    rw [abs_lt]
    constructor
    · have q1 : ((⌊(h : ℚ) * s⌋ : ℤ) : ℚ) * (w : ℚ) ≤ ((h : ℚ) * s) * (w : ℚ) :=
        mul_le_mul_of_nonneg_right hfB hwQ.le
      have q2 : ((w : ℚ) * s) * (h : ℚ) - ((⌊(w : ℚ) * s⌋ : ℤ) : ℚ) * (h : ℚ) < (h : ℚ) := by
        have hr : ((w : ℚ) * s) * (h : ℚ) - ((⌊(w : ℚ) * s⌋ : ℤ) : ℚ) * (h : ℚ)
            = ((w : ℚ) * s - ((⌊(w : ℚ) * s⌋ : ℤ) : ℚ)) * (h : ℚ) := by ring
        rw [hr]
        calc ((w : ℚ) * s - ((⌊(w : ℚ) * s⌋ : ℤ) : ℚ)) * (h : ℚ)
            < 1 * (h : ℚ) := by
              apply mul_lt_mul_of_pos_right _ hhQ
              linarith
          _ = (h : ℚ) := one_mul _
      have hAB : ((w : ℚ) * s) * (h : ℚ) = ((h : ℚ) * s) * (w : ℚ) := by ring
      linarith
    · have p1 : ((⌊(w : ℚ) * s⌋ : ℤ) : ℚ) * (h : ℚ) ≤ ((w : ℚ) * s) * (h : ℚ) :=
        mul_le_mul_of_nonneg_right hfA hhQ.le
      have p2 : ((h : ℚ) * s) * (w : ℚ) - ((⌊(h : ℚ) * s⌋ : ℤ) : ℚ) * (w : ℚ) < (w : ℚ) := by
        have hr : ((h : ℚ) * s) * (w : ℚ) - ((⌊(h : ℚ) * s⌋ : ℤ) : ℚ) * (w : ℚ)
            = ((h : ℚ) * s - ((⌊(h : ℚ) * s⌋ : ℤ) : ℚ)) * (w : ℚ) := by ring
        rw [hr]
        calc ((h : ℚ) * s - ((⌊(h : ℚ) * s⌋ : ℤ) : ℚ)) * (w : ℚ)
            < 1 * (w : ℚ) := by
              apply mul_lt_mul_of_pos_right _ hwQ
              linarith
          _ = (w : ℚ) := one_mul _
      have hAB : ((w : ℚ) * s) * (h : ℚ) = ((h : ℚ) * s) * (w : ℚ) := by ring
      linarith
  have hden : (0 : ℚ) < ((⌊(h : ℚ) * s⌋ : ℤ) : ℚ) * (h : ℚ) := mul_pos hBQ hhQ
  have eq1 : ((⌊(w : ℚ) * s⌋ : ℤ) : ℚ) / ((⌊(h : ℚ) * s⌋ : ℤ) : ℚ) - (w : ℚ) / (h : ℚ)
      = (((⌊(w : ℚ) * s⌋ : ℤ) : ℚ) * (h : ℚ) - ((⌊(h : ℚ) * s⌋ : ℤ) : ℚ) * (w : ℚ))
        / (((⌊(h : ℚ) * s⌋ : ℤ) : ℚ) * (h : ℚ)) :=
    div_sub_div _ _ (ne_of_gt hBQ) (ne_of_gt hhQ)
  rw [eq1, abs_div, abs_of_pos hden]
  exact (div_lt_div_iff_of_pos_right hden).mpr key

/-- extract_exif_data on a some-table is the tag-loop fold. -/
lemma extract_some (l : List (String × TagValue)) :
    extract_exif_data (some l) = l.foldl exif_step (none, none) := rfl

/-- The tag loop leaves the date component untouched over a stretch of tags
none of which is named DateTimeOriginal. -/
lemma exif_foldl_fst (l : List (String × TagValue)) (acc : Option String × Option String)
    (hl : ∀ p ∈ l, p.1 ≠ "DateTimeOriginal") :
    (l.foldl exif_step acc).1 = acc.1 := by
  induction l generalizing acc with
  | nil => rfl
  | cons p t ih =>
      rw [List.foldl_cons, ih _ (fun q hq => hl q (List.mem_cons_of_mem p hq))]
      have hp : p.1 ≠ "DateTimeOriginal" := hl p (List.mem_cons_self p t)
      unfold exif_step
      rw [if_neg hp]
      by_cases hg : p.1 = "GPSInfo"
      · rw [if_pos hg]
      · rw [if_neg hg]

/-- The tag loop leaves the location component untouched over a stretch of
tags none of which is named GPSInfo. -/
lemma exif_foldl_snd (l : List (String × TagValue)) (acc : Option String × Option String)
    (hl : ∀ p ∈ l, p.1 ≠ "GPSInfo") :
    (l.foldl exif_step acc).2 = acc.2 := by
  induction l generalizing acc with
  | nil => rfl
  | cons p t ih =>
      rw [List.foldl_cons, ih _ (fun q hq => hl q (List.mem_cons_of_mem p hq))]
      have hp : p.1 ≠ "GPSInfo" := hl p (List.mem_cons_self p t)
      unfold exif_step
      by_cases hd : p.1 = "DateTimeOriginal"
      · rw [if_pos hd]
      · rw [if_neg hd, if_neg hp]

/-- A DateTimeOriginal entry not followed by another one determines the
extracted date component. -/
lemma exif_date_entry (pre post : List (String × TagValue)) (v : TagValue)
    (hpost : ∀ p ∈ post, p.1 ≠ "DateTimeOriginal") :
    (extract_exif_data (some (pre ++ ("DateTimeOriginal", v) :: post))).1
      = some (reformatDateTime v.text) := by
  rw [extract_some, List.foldl_append, List.foldl_cons, exif_foldl_fst post _ hpost]
  simp [exif_step]

/-- Running the counting fold from a shifted starting value shifts the
result. -/
lemma process_folder_go (files : List (String × Env)) (n : ℕ) :
    files.foldl (fun count fe => count + file_contrib fe) n
      = n + files.foldl (fun count fe => count + file_contrib fe) 0 := by
  induction files generalizing n with
  | nil => simp
  | cons fe t ih =>
      rw [List.foldl_cons, List.foldl_cons, ih (n + file_contrib fe), ih (0 + file_contrib fe)]
      omega

/-- Head decomposition of the process_folder success count. -/
lemma process_folder_cons (fe : String × Env) (files : List (String × Env)) :
    process_folder (fe :: files) = file_contrib fe + process_folder files := by
  unfold process_folder
  rw [List.foldl_cons, process_folder_go]
  omega

/-- A 1240 × 1433 source fills the available region exactly. -/
lemma calc_dims_1240_1433 : calculate_dimensions 1240 1433 = (1240, 1433) := by
  unfold calculate_dimensions
  rw [available_height_eq]
  norm_num [A6_WIDTH, min_def]

/-- A 1240 × 1433 source is portrait, so it is not rotated. -/
lemma rotate_1240_1433 : should_rotate_for_a6 1240 1433 = false := by
  unfold should_rotate_for_a6
  rw [if_neg (by norm_num)]

/-- Concrete run of create_postcard on a decodable portrait JPEG with no
EXIF data and all capabilities succeeding. -/
lemma cp_eval_ok :
    create_postcard "a.jpg" ⟨some ⟨1240, 1433, none⟩, true, true⟩ =
      (true, some ⟨1240, 1748, 1240, 1433, 0, 0, 1433, 314, some ("2024.01.01", "SHENZHEN")⟩) := by
  have hraw : isRawPath "a.jpg" = false := by decide
  unfold create_postcard
  rw [hraw]
  simp only [Bool.false_eq_true, if_false, rotate_1240_1433, calc_dims_1240_1433,
    white_bar_height_eq]
  norm_num [extract_exif_data, caption_lines, fallback_text, A6_WIDTH, A6_HEIGHT]

/-- C1: for every positive source width and height, calculate_dimensions
computes scale = min(availableWidth/width, availableHeight/height) with
availableWidth = canvasWidth = 1240 and availableHeight =
floor(canvasHeight * (1 - 0.18)) = 1433, floor-rounds both scaled
dimensions, and the result respects newWidth ≤ canvasWidth and
newHeight ≤ canvasHeight * (1 - stripRatio); whenever the rounded height
is positive, the aspect ratio is preserved within the explicit rounding
tolerance max(width, height) / (newHeight * height). -/
theorem calculate_dimensions_spec (w h : ℕ) (hw : 0 < w) (hh : 0 < h) :
    calc_dims_spec w h := by
  refine ⟨rfl, available_height_eq, calc_width_le w h hw, ?_, ?_⟩
  · have h2 := calc_height_le w h hh
    have h3 : ((calculate_dimensions w h).2 : ℚ) ≤ ((available_height : ℤ) : ℚ) := by
      exact_mod_cast h2
    have h4 : ((available_height : ℤ) : ℚ) ≤ (A6_HEIGHT : ℚ) * (1 - WHITE_BAR_RATIO) := by
      rw [available_height_eq]
      norm_num [A6_HEIGHT, WHITE_BAR_RATIO]
    linarith
  · intro hpos
    exact floor_pair_ratio w h _ hw hh hpos

/-- C1 witness: the specification evaluated at a 4000 × 3000 source. -/
theorem calculate_dimensions_spec_witness : calc_dims_spec 4000 3000 :=
  calculate_dimensions_spec 4000 3000 (by norm_num) (by norm_num)

/-- C2: for every landscape input (width > height), should_rotate_for_a6
returns true exactly when the rotated fit factor strictly exceeds 1.1
times the unrotated one; at 1100 × 1000 the rotated factor exceeds the
unrotated one by exactly 10% and rotation is not triggered, while at
11001 × 10000 the excess is exactly 10.01% and rotation is triggered. -/
theorem should_rotate_threshold :
    (∀ w h : ℕ, h < w →
      (should_rotate_for_a6 w h = true ↔
        horizontal_ratio w h * (11 / 10) < vertical_ratio w h))
    ∧ vertical_ratio 1100 1000 = horizontal_ratio 1100 1000 * (11 / 10)
    ∧ should_rotate_for_a6 1100 1000 = false
    ∧ vertical_ratio 11001 10000 = horizontal_ratio 11001 10000 * (11001 / 10000)
    ∧ should_rotate_for_a6 11001 10000 = true := by
  refine ⟨fun w h hlt => ?_, ?_, ?_, ?_, ?_⟩
  · unfold should_rotate_for_a6
    rw [if_pos hlt]
    simp only [decide_eq_true_eq, gt_iff_lt]
  · unfold vertical_ratio horizontal_ratio
    norm_num [A6_WIDTH, A6_HEIGHT, min_def]
  · unfold should_rotate_for_a6
    rw [if_pos (by norm_num)]
    simp only [decide_eq_false_iff_not, gt_iff_lt, not_lt]
    unfold vertical_ratio horizontal_ratio
    norm_num [A6_WIDTH, A6_HEIGHT, min_def]
  · unfold vertical_ratio horizontal_ratio
    norm_num [A6_WIDTH, A6_HEIGHT, min_def]
  · unfold should_rotate_for_a6
    rw [if_pos (by norm_num)]
    simp only [decide_eq_true_eq, gt_iff_lt]
    unfold vertical_ratio horizontal_ratio
    norm_num [A6_WIDTH, A6_HEIGHT, min_def]

/-- C2 witness: the threshold equivalence evaluated at 1240 × 620. -/
theorem should_rotate_threshold_witness :
    should_rotate_for_a6 1240 620 = true ↔
      horizontal_ratio 1240 620 * (11 / 10) < vertical_ratio 1240 620 :=
  should_rotate_threshold.1 1240 620 (by norm_num)

/-- C3: for every portrait or square input (width ≤ height),
should_rotate_for_a6 returns false. -/
theorem portrait_never_rotates (w h : ℕ) (hwh : w ≤ h) :
    should_rotate_for_a6 w h = false := by
  unfold should_rotate_for_a6
  rw [if_neg (by omega)]

/-- C3 witness: a 3 × 5 portrait image is not rotated. -/
theorem portrait_never_rotates_witness : should_rotate_for_a6 3 5 = false :=
  portrait_never_rotates 3 5 (by norm_num)

/-- C4: when the DateTimeOriginal tag is present, extraction applies the
reformatting function to its value; a value matching YYYY:MM:DD HH:MM:SS
is rewritten to the Mon DD, YYYY form, with "2024:03:15 10:30:00" giving
exactly "Mar 15, 2024"; a value that does not parse is passed through
unchanged. -/
theorem datetime_reformat_spec :
    (∀ (pre post : List (String × TagValue)) (v : TagValue),
        (∀ p ∈ post, p.1 ≠ "DateTimeOriginal") →
        (extract_exif_data (some (pre ++ ("DateTimeOriginal", v) :: post))).1
          = some (reformatDateTime v.text))
    ∧ (∀ (s : String) (y m d : ℕ), strptime_YmdHMS s = some (y, m, d) →
        reformatDateTime s = strftime_bdY y m d)
    ∧ reformatDateTime "2024:03:15 10:30:00" = "Mar 15, 2024"
    ∧ (∀ s : String, strptime_YmdHMS s = none → reformatDateTime s = s) := by
  refine ⟨exif_date_entry, fun s y m d hp => ?_, by decide, fun s hp => ?_⟩
  · unfold reformatDateTime
    rw [hp]
  · unfold reformatDateTime
    rw [hp]

/-- C4 witness: extraction of a table holding the example timestamp. -/
theorem datetime_reformat_spec_witness :
    (extract_exif_data (some [("DateTimeOriginal", ⟨"2024:03:15 10:30:00", true⟩)])).1
      = some "Mar 15, 2024" := by
  have h := datetime_reformat_spec.1 [] [] ⟨"2024:03:15 10:30:00", true⟩ (by simp)
  simpa [datetime_reformat_spec.2.2.1] using h

/-- C5: a tag table without a DateTimeOriginal entry yields the caption
date text "2024.01.01", and one without a GPSInfo entry yields the
caption location text "SHENZHEN"; the extraction and caption functions
are total, so no failure reaches the caller. -/
theorem metadata_fallback_spec (tags : List (String × TagValue)) :
    ((∀ p ∈ tags, p.1 ≠ "DateTimeOriginal") →
      (caption_lines (extract_exif_data (some tags)).1 (extract_exif_data (some tags)).2).1
        = "2024.01.01")
    ∧ ((∀ p ∈ tags, p.1 ≠ "GPSInfo") →
      (caption_lines (extract_exif_data (some tags)).1 (extract_exif_data (some tags)).2).2
        = "SHENZHEN") := by
  constructor
  · intro hl
    have h1 : (extract_exif_data (some tags)).1 = none := by
      rw [extract_some]
      exact exif_foldl_fst tags _ hl
    simp [caption_lines, fallback_text, h1]
  · intro hl
    have h1 : (extract_exif_data (some tags)).2 = none := by
      rw [extract_some]
      exact exif_foldl_snd tags _ hl
    simp [caption_lines, fallback_text, h1]

/-- C5 witness: both fallbacks on a table holding only a Make tag. -/
theorem metadata_fallback_spec_witness :
    (caption_lines (extract_exif_data (some [("Make", ⟨"X100V", true⟩)])).1
        (extract_exif_data (some [("Make", ⟨"X100V", true⟩)])).2).1 = "2024.01.01"
    ∧ (caption_lines (extract_exif_data (some [("Make", ⟨"X100V", true⟩)])).1
        (extract_exif_data (some [("Make", ⟨"X100V", true⟩)])).2).2 = "SHENZHEN" :=
  ⟨(metadata_fallback_spec _).1 (by decide), (metadata_fallback_spec _).2 (by decide)⟩

/-- C6: every canvas written by create_postcard carries the centering
offsets xOffset = (canvasWidth - contentWidth) // 2 and yOffset = 0, and
the horizontal offset is non-negative whenever the content fits. -/
theorem centering_spec (path : String) (env : Env) (c : Canvas)
    (hc : (create_postcard path env).2 = some c) :
    c.xOffset = ((A6_WIDTH : ℤ) - c.contentWidth).fdiv 2
    ∧ c.yOffset = 0
    ∧ (c.contentWidth ≤ (A6_WIDTH : ℤ) → 0 ≤ c.xOffset) := by
  simp only [create_postcard] at hc
  split at hc
  · simp at hc
  · split at hc
    · simp only [Option.some_inj] at hc
      subst hc
      refine ⟨rfl, rfl, fun hle => ?_⟩
      exact Int.fdiv_nonneg (sub_nonneg.mpr hle) (by norm_num)
    · simp at hc

/-- C6 witness: the centering conclusion on the concretely composed
canvas of a 1240 × 1433 source. -/
theorem centering_spec_witness :
    (0 : ℤ) = ((A6_WIDTH : ℤ) - 1240).fdiv 2
    ∧ (0 : ℤ) = 0
    ∧ ((1240 : ℤ) ≤ (A6_WIDTH : ℤ) → 0 ≤ (0 : ℤ)) :=
  centering_spec "a.jpg" ⟨some ⟨1240, 1433, none⟩, true, true⟩
    ⟨1240, 1748, 1240, 1433, 0, 0, 1433, 314, some ("2024.01.01", "SHENZHEN")⟩
    (by rw [cp_eval_ok])

/-- C7: for every positive source dimensions the canvas plan invariant
holds: contentWidth ≤ canvasWidth = 1240 and contentHeight + stripHeight
≤ canvasHeight = 1748, with stripHeight = floor(1748 * 0.18). -/
theorem canvas_invariant_spec (w h : ℕ) (hw : 0 < w) (hh : 0 < h) :
    (calculate_dimensions w h).1 ≤ (A6_WIDTH : ℤ)
    ∧ (calculate_dimensions w h).2 + white_bar_height ≤ (A6_HEIGHT : ℤ) := by
  refine ⟨calc_width_le w h hw, ?_⟩
  have h2 := calc_height_le w h hh
  rw [available_height_eq] at h2
  rw [white_bar_height_eq]
  have hA : ((A6_HEIGHT : ℕ) : ℤ) = 1748 := by norm_num [A6_HEIGHT]
  omega

/-- C7 witness: the invariant evaluated at a 3000 × 2000 source. -/
theorem canvas_invariant_spec_witness :
    (calculate_dimensions 3000 2000).1 ≤ (A6_WIDTH : ℤ)
    ∧ (calculate_dimensions 3000 2000).2 + white_bar_height ≤ (A6_HEIGHT : ℤ) :=
  canvas_invariant_spec 3000 2000 (by norm_num) (by norm_num)

/-- C8: when decoding the source fails (the opened image is missing),
create_postcard returns False and writes no output, and the batch count
over a listing starting with that file equals the count over the rest:
the failure is contained and processing continues. -/
theorem decode_failure_spec (path : String) (env : Env)
    (hdec : (if isRawPath path then read_raw_file path else env.openImage) = none) :
    create_postcard path env = (false, none)
    ∧ ∀ rest, process_folder ((path, env) :: rest) = process_folder rest := by
  have h1 : create_postcard path env = (false, none) := by
    unfold create_postcard
    rw [hdec]
  refine ⟨h1, fun rest => ?_⟩
  rw [process_folder_cons]
  have h2 : file_contrib (path, env) = 0 := by
    simp [file_contrib, h1]
  rw [h2, Nat.zero_add]

/-- C8 witness: an unreadable JPEG is skipped and does not contribute to
the batch count. -/
theorem decode_failure_spec_witness :
    create_postcard "broken.jpg" ⟨none, true, true⟩ = (false, none)
    ∧ process_folder [("broken.jpg", ⟨none, true, true⟩)] = process_folder [] :=
  ⟨(decode_failure_spec "broken.jpg" ⟨none, true, true⟩ (by decide)).1,
    (decode_failure_spec "broken.jpg" ⟨none, true, true⟩ (by decide)).2 []⟩

/-- C9: when caption rendering fails but decoding and saving succeed,
create_postcard still returns True and still writes a canvas, whose
caption is omitted. -/
theorem text_failure_degrade_spec (path : String) (env : Env) (img : SourceImage)
    (hraw : isRawPath path = false) (hopen : env.openImage = some img)
    (htext : env.textOk = false) (hsave : env.saveOk = true) :
    (create_postcard path env).1 = true
    ∧ Option.map Canvas.caption (create_postcard path env).2 = some none := by
  simp [create_postcard, hraw, hopen, htext, hsave]

/-- C9 witness: a decodable source with failing text rendering is still
composed, saved and reported as success, with no caption. -/
theorem text_failure_degrade_spec_witness :
    (create_postcard "b.jpg" ⟨some ⟨1240, 1433, none⟩, false, true⟩).1 = true
    ∧ Option.map Canvas.caption
        (create_postcard "b.jpg" ⟨some ⟨1240, 1433, none⟩, false, true⟩).2 = some none :=
  text_failure_degrade_spec "b.jpg" _ ⟨1240, 1433, none⟩ (by decide) rfl rfl rfl

/-- C10: for every path ending in .nef or .raw (case-insensitively),
read_raw_file returns None — the name rawpy is referenced but never
imported, so the attempt always raises and the exception is swallowed —
and consequently create_postcard returns False for such files in every
environment and writes no output. -/
theorem raw_read_spec (path : String) (hraw : isRawPath path = true) :
    read_raw_file path = none
    ∧ ∀ env : Env, create_postcard path env = (false, none) := by
  refine ⟨rfl, fun env => ?_⟩
  unfold create_postcard
  rw [hraw]
  rfl

/-- C10 witness: a .nef file is rejected even though the decode
capability for ordinary images would have succeeded. -/
theorem raw_read_spec_witness :
    read_raw_file "x.nef" = none
    ∧ create_postcard "x.nef" ⟨some ⟨4000, 3000, none⟩, true, true⟩ = (false, none) :=
  ⟨(raw_read_spec "x.nef" (by decide)).1,
    (raw_read_spec "x.nef" (by decide)).2 ⟨some ⟨4000, 3000, none⟩, true, true⟩⟩
